import Mathlib

/-!
Verification of the recording-session lifecycle of the `isaacsim.llm.assistant`
extension (`recording_manager.py`), as a shallow embedding in Lean 4.

Modelling conventions:
* `time.time()` is modelled as a natural-number clock measured in ticks of
  1/60 second (the sampler loop sleeps 1/60 s per iteration), so the config
  value `max_recording_duration` (seconds) is compared against elapsed ticks
  via the factor 60.
* Host-raised exceptions (timeline reads, stage access, directory creation,
  file writes) are supplied by environment records (`StartEnv`, `StopEnv`,
  `CaptureEnv`) as explicit success/failure data.
* Python dictionaries holding recording data are embedded as structures; the
  initially-empty `self.recording_data = {}` is `Option RecordingData` with
  `none` standing for the empty dict (a key access on it raises, which the
  corresponding handler catches).
* A Python integer division or modulo by zero raises `ZeroDivisionError`;
  the loop embedding branches to its error exit exactly where the source's
  `except` handler would catch it.
-/

namespace IsaacRec

/-- The `recording_config` dictionary built in `RecordingManager.__init__`. -/
structure RecordingConfig where
  capture_frequency : Nat
  capture_screenshots : Bool
  capture_physics_data : Bool
  capture_robot_data : Bool
  capture_sensor_data : Bool
  max_recording_duration : Nat
  deriving DecidableEq, Repr

/-- The default configuration values from `__init__`. -/
def defaultConfig : RecordingConfig :=
  { capture_frequency := 30
    capture_screenshots := true
    capture_physics_data := true
    capture_robot_data := true
    capture_sensor_data := true
    max_recording_duration := 300 }

/-- One entry of `recording_data["timeline_data"]` built in `_capture_frame_data`. -/
structure TimelineSample where
  timestamp : Nat
  simulation_time : Int
  is_playing : Bool
  frame_count : Nat
  deriving DecidableEq, Repr

/-- One entry of `recording_data["physics_data"]`: either the record built by
`_capture_physics_data`, or the empty dict it returns when the stage is absent
or its body raised. -/
inductive PhysicsSample where
  | record (timestamp : Nat)
  | empty
  deriving DecidableEq, Repr

/-- One entry of `recording_data["robot_data"]`. -/
inductive RobotSample where
  | record (timestamp : Nat)
  | empty
  deriving DecidableEq, Repr

/-- One entry of `recording_data["sensor_data"]`. -/
inductive SensorSample where
  | record (timestamp : Nat)
  | empty
  deriving DecidableEq, Repr

/-- The `recording_data["metadata"]` sub-dictionary. -/
structure Metadata where
  recording_dir : String
  isaac_sim_version : String
  stage_path : String
  end_time : Option String
  duration : Option Nat
  deriving DecidableEq, Repr

/-- The `self.recording_data` dictionary as initialised in `start_recording`. -/
structure RecordingData where
  recording_id : String
  start_time : String
  timeline_data : List TimelineSample
  physics_data : List PhysicsSample
  robot_data : List RobotSample
  sensor_data : List SensorSample
  screenshots : List Unit
  metadata : Metadata
  deriving DecidableEq, Repr

/-- The mutable fields of `RecordingManager`. -/
structure ManagerState where
  is_recording : Bool
  recording_start_time : Option Nat
  recording_data : Option RecordingData
  recording_path : String
  current_recording_id : Option String
  recording_config : RecordingConfig
  deriving DecidableEq, Repr

/-- State after `RecordingManager.__init__`. -/
def initialState : ManagerState :=
  { is_recording := false
    recording_start_time := none
    recording_data := none
    recording_path := "/tmp/isaac_sim_recordings"
    current_recording_id := none
    recording_config := defaultConfig }

/-- The summary dictionary built by `_generate_recording_summary`.
The average-fps field is the exact rational the Python float division computes. -/
structure Summary where
  recording_id : Option String
  duration : Nat
  frame_count : Nat
  physics_events : Nat
  robot_events : Nat
  sensor_events : Nat
  sim_time_start : Int
  sim_time_end : Int
  avg_fps : Rat
  deriving DecidableEq, Repr

/-- Result dictionary of `start_recording`; optional keys are present only on
the branches where the source adds them. -/
structure StartResult where
  success : Bool
  message : String
  recording_id : Option String
  recording_dir : Option String
  deriving DecidableEq, Repr

/-- Result dictionary of `stop_recording`. The summary key, when present,
holds what `_generate_recording_summary` returned: an `Option Summary` whose
`none` stands for the empty dict that its exception handler returns. -/
structure StopResult where
  success : Bool
  message : String
  recording_id : Option String
  recording_file : Option String
  summary_file : Option String
  summary : Option (Option Summary)
  deriving DecidableEq, Repr

/-- Content of a file written by `stop_recording`. -/
inductive FileContent where
  | rawData (d : RecordingData)
  | summaryJson (s : Option Summary)
  deriving DecidableEq, Repr

/-- One file write performed by the manager, recorded as directory, file name
and serialized content. -/
structure FileWrite where
  dir : String
  name : String
  content : FileContent
  deriving DecidableEq, Repr

/-- Host-supplied data consumed by one `start_recording` call: the formatted
timestamp, the stage URL, whether `os.makedirs` succeeds, and the clock. -/
structure StartEnv where
  timestamp : String
  stage_path : String
  mkdirOk : Bool
  now : Nat
  deriving DecidableEq, Repr

/-- Host-supplied data consumed by one `stop_recording` call: the
formatted end timestamp, the clock, and whether each of the two file
writes succeeds. -/
structure StopEnv where
  end_time : String
  now : Nat
  writeDataOk : Bool
  writeSummaryOk : Bool
  deriving DecidableEq, Repr

/-- `os.path.join` for the relative second components used by the manager. -/
def pathJoin (a b : String) : String := a ++ "/" ++ b

/-- The identifier chosen in `start_recording`:
`recording_name or f"recording_{timestamp}"` (an empty caller-supplied string
is falsy in Python and falls back to the timestamp form). -/
def genRecordingId (recording_name : Option String) (timestamp : String) : String :=
  match recording_name with
  | some n => if n = "" then "recording_" ++ timestamp else n
  | none => "recording_" ++ timestamp

/-- `RecordingManager.start_recording`. Returns the result dictionary, the
state after the call, and the files written (none on this path; only a
directory is created). On the already-recording guard nothing is touched; if
`os.makedirs` raises, `current_recording_id` has already been overwritten and
the handler returns a failure result. -/
def start_recording (recording_name : Option String) (env : StartEnv)
    (st : ManagerState) : StartResult × ManagerState × List FileWrite :=
  if st.is_recording then
    ({ success := false, message := "Already recording"
       recording_id := none, recording_dir := none }, st, [])
  else
    let rid := genRecordingId recording_name env.timestamp
    let st1 := { st with current_recording_id := some rid }
    let dir := pathJoin st.recording_path rid
    if env.mkdirOk then
      let data : RecordingData :=
        { recording_id := rid
          start_time := env.timestamp
          timeline_data := []
          physics_data := []
          robot_data := []
          sensor_data := []
          screenshots := []
          metadata :=
            { recording_dir := dir
              isaac_sim_version := "5.0.0"
              stage_path := env.stage_path
              end_time := none
              duration := none } }
      ({ success := true
         message := "Recording started: " ++ rid
         recording_id := some rid
         recording_dir := some dir },
       { st1 with
          recording_data := some data
          is_recording := true
          recording_start_time := some env.now }, [])
    else
      ({ success := false, message := "Failed to start recording"
         recording_id := none, recording_dir := none }, st1, [])

/-- `RecordingManager._generate_recording_summary`, which reads
`self.current_recording_id` and `self.recording_data`. Returns `none` for the
empty dict produced by its exception handler: the only raise inside its body
is the `ZeroDivisionError` of the float division `len(timeline_data) /
metadata.get("duration", 1)` when the stored duration is zero. -/
def generate_recording_summary (rid : Option String) (data : RecordingData) :
    Option Summary :=
  let tl := data.timeline_data
  let d := data.metadata.duration.getD 1
  if d = 0 then none
  else
    some
      { recording_id := rid
        duration := data.metadata.duration.getD 0
        frame_count := tl.length
        physics_events := data.physics_data.length
        robot_events := data.robot_data.length
        sensor_events := data.sensor_data.length
        sim_time_start := ((tl.head?).map (fun s => s.simulation_time)).getD 0
        sim_time_end := ((tl.getLast?).map (fun s => s.simulation_time)).getD 0
        avg_fps := (tl.length : Rat) / (d : Rat) }

/-- `RecordingManager.stop_recording`. The flag `is_recording` is cleared
inside the try block before any fallible operation, so it stays cleared even
when a later file write raises and the call returns a failure result. The
final `match` arm models the key errors raised when `recording_data` is the
empty dict or `recording_start_time` is `None`, both caught by the handler. -/
def stop_recording (env : StopEnv) (st : ManagerState) :
    StopResult × ManagerState × List FileWrite :=
  if !st.is_recording then
    ({ success := false, message := "Not recording", recording_id := none
       recording_file := none, summary_file := none, summary := none }, st, [])
  else
    let st1 := { st with is_recording := false }
    match st.recording_data, st.recording_start_time with
    | some data, some t0 =>
      let data1 :=
        { data with
            metadata :=
              { data.metadata with
                  end_time := some env.end_time
                  duration := some (env.now - t0) } }
      let st2 := { st1 with recording_data := some data1 }
      let dir := data1.metadata.recording_dir
      if env.writeDataOk then
        let w1 : FileWrite := ⟨dir, "recording_data.json", .rawData data1⟩
        let summary := generate_recording_summary st.current_recording_id data1
        if env.writeSummaryOk then
          let w2 : FileWrite := ⟨dir, "recording_summary.json", .summaryJson summary⟩
          ({ success := true
             message := "Recording saved: " ++ (st.current_recording_id.getD "None")
             recording_id := st.current_recording_id
             recording_file := some (pathJoin dir "recording_data.json")
             summary_file := some (pathJoin dir "recording_summary.json")
             summary := some summary },
           { st2 with current_recording_id := none, recording_start_time := none },
           [w1, w2])
        else
          ({ success := false, message := "Failed to stop recording"
             recording_id := none, recording_file := none
             summary_file := none, summary := none }, st2, [w1])
      else
        ({ success := false, message := "Failed to stop recording"
           recording_id := none, recording_file := none
           summary_file := none, summary := none }, st2, [])
    | _, _ =>
      ({ success := false, message := "Failed to stop recording"
         recording_id := none, recording_file := none
         summary_file := none, summary := none }, st1, [])

deriving instance DecidableEq for Except

/-- Host-supplied data consumed by one capture pass: the clock, the outcome of
the timeline-interface reads (get_current_time and is_playing, which may
raise), and the outcome of each per-category capture body before its own
exception handler runs (`error` stands for a raise inside the body). -/
structure CaptureEnv where
  now : Nat
  timelineRead : Except Unit (Int × Bool)
  physicsBody : Except Unit PhysicsSample
  robotBody : Except Unit RobotSample
  sensorBody : Except Unit SensorSample
  deriving DecidableEq, Repr

/-- `RecordingManager._capture_physics_data`: its own try/except returns the
empty dict when the body raises. -/
def capture_physics_data (body : Except Unit PhysicsSample) : PhysicsSample :=
  match body with
  | .ok s => s
  | .error _ => .empty

/-- `RecordingManager._capture_robot_data`. -/
def capture_robot_data (body : Except Unit RobotSample) : RobotSample :=
  match body with
  | .ok s => s
  | .error _ => .empty

/-- `RecordingManager._capture_sensor_data`. -/
def capture_sensor_data (body : Except Unit SensorSample) : SensorSample :=
  match body with
  | .ok s => s
  | .error _ => .empty

/-- `RecordingManager._capture_frame_data` acting on the recording-data dict.
A raise in the timeline reads is caught by this method's own handler, so the
pass is abandoned with nothing appended; the three per-category helpers catch
their own exceptions, so from here they never raise. In all cases the caller
sees a normal return. -/
def capture_frame_data (cfg : RecordingConfig) (env : CaptureEnv)
    (data : RecordingData) : RecordingData :=
  match env.timelineRead with
  | .error _ => data
  | .ok (simTime, playing) =>
    let tl : TimelineSample :=
      { timestamp := env.now
        simulation_time := simTime
        is_playing := playing
        frame_count := data.timeline_data.length }
    let d1 := { data with timeline_data := data.timeline_data ++ [tl] }
    let d2 :=
      if cfg.capture_physics_data then
        { d1 with physics_data := d1.physics_data ++ [capture_physics_data env.physicsBody] }
      else d1
    let d3 :=
      if cfg.capture_robot_data then
        { d2 with robot_data := d2.robot_data ++ [capture_robot_data env.robotBody] }
      else d2
    if cfg.capture_sensor_data then
      { d3 with sensor_data := d3.sensor_data ++ [capture_sensor_data env.sensorBody] }
    else d3

/-- Host-supplied data for one iteration of `_recording_loop`: the clock at
this tick, the capture environment, and the stop environment used if this
iteration triggers the duration-cap stop. -/
structure TickEnv where
  now : Nat
  capture : CaptureEnv
  stopEnv : StopEnv
  deriving DecidableEq, Repr

/-- Outcome of one iteration of the while loop in `_recording_loop`. -/
inductive TickOutcome where
  | cont (st : ManagerState) (frame_count : Nat)
  | exitNotRecording (st : ManagerState)
  | exitMaxDuration (st : ManagerState) (r : StopResult) (ws : List FileWrite)
  | exitError (st : ManagerState)
  deriving DecidableEq, Repr

/-- One iteration of the while loop in `_recording_loop`. The clock check
compares elapsed ticks against the configured maximum (seconds, hence the
factor 60). The cadence divisor `60 // capture_frequency` is computed inside
the modulo expression; when it is zero Python raises `ZeroDivisionError`,
which the loop's except handler catches before breaking: that path is the
`exitError` arm, reached with the state untouched. The `none` start-time arm
models the `TypeError` the elapsed-time subtraction would raise, caught by the
same handler. -/
def loop_tick (env : TickEnv) (st : ManagerState) (frame_count : Nat) :
    TickOutcome :=
  if !st.is_recording then .exitNotRecording st
  else
    match st.recording_start_time with
    | none => .exitError st
    | some t0 =>
      if env.now - t0 > 60 * st.recording_config.max_recording_duration then
        let r := stop_recording env.stopEnv st
        .exitMaxDuration r.2.1 r.1 r.2.2
      else
        let d := 60 / st.recording_config.capture_frequency
        if d = 0 then .exitError st
        else if frame_count % d = 0 then
          .cont
            { st with
                recording_data :=
                  st.recording_data.map (capture_frame_data st.recording_config env.capture) }
            (frame_count + 1)
        else .cont st (frame_count + 1)

/-- Final outcome of running `_recording_loop` for at most `fuel` iterations,
carrying the frame counter at which the loop exited. -/
inductive LoopResult where
  | outOfFuel (frame_count : Nat) (st : ManagerState)
  | stoppedExternally (frame_count : Nat) (st : ManagerState)
  | maxDurationExit (frame_count : Nat) (st : ManagerState) (r : StopResult)
      (ws : List FileWrite)
  | errorExit (frame_count : Nat) (st : ManagerState)
  deriving DecidableEq, Repr

/-- `RecordingManager._recording_loop`, fuelled: tick `k` uses environment
`envs k`, mirroring that `frame_count` is incremented once per iteration. -/
def run_loop (envs : Nat → TickEnv) : Nat → Nat → ManagerState → LoopResult
  | 0, fc, st => .outOfFuel fc st
  | fuel + 1, fc, st =>
    match loop_tick (envs fc) st fc with
    | .cont st1 fc1 => run_loop envs fuel fc1 st1
    | .exitNotRecording st1 => .stoppedExternally fc st1
    | .exitMaxDuration st1 r ws => .maxDurationExit fc st1 r ws
    | .exitError st1 => .errorExit fc st1

/-- Result of `get_recording_status`. -/
structure StatusResult where
  is_recording : Bool
  recording_id : Option String
  duration : Nat
  recording_path : String
  deriving DecidableEq, Repr

/-- `RecordingManager.get_recording_status` at clock value `now`. In every
reachable recording state `recording_start_time` is set; the default 0 models
only the unreachable arm. -/
def get_recording_status (now : Nat) (st : ManagerState) : StatusResult :=
  { is_recording := st.is_recording
    recording_id := st.current_recording_id
    duration := if st.is_recording then now - st.recording_start_time.getD 0 else 0
    recording_path := st.recording_path }

/-- The sort key `x.get("recording_id", "")` used by `get_recordings`. A
summary persisted by this manager always carries its identifier string; the
empty-dict summary has no key and yields the default. -/
def sortKey (s : Option Summary) : String :=
  match s with
  | none => ""
  | some s => s.recording_id.getD ""

/-- Descending identifier order on stored summaries, the order produced by
`sorted(..., key=..., reverse=True)`. -/
def summaryGE (a b : Option Summary) : Prop := sortKey b ≤ sortKey a

instance : DecidableRel summaryGE := fun a b =>
  inferInstanceAs (Decidable (sortKey b ≤ sortKey a))

instance : IsTotal (Option Summary) summaryGE :=
  ⟨fun a b => le_total (sortKey b) (sortKey a)⟩

instance : IsTrans (Option Summary) summaryGE :=
  ⟨fun _ _ _ hab hbc => le_trans hbc hab⟩

/-- One entry of the storage root as `get_recordings` observes it: its name,
whether it is a directory, and, for directories, the parsed content of
`recording_summary.json` when that file exists (`none` when it does not). -/
structure DirEntry where
  name : String
  isDir : Bool
  summary : Option (Option Summary)
  deriving DecidableEq, Repr

/-- The summary contributed by one root entry: non-directories and directories
without a summary file contribute nothing. -/
def dirSummary (e : DirEntry) : Option (Option Summary) :=
  if e.isDir then e.summary else none

/-- `RecordingManager.get_recordings` over a storage root listed as
`entries`: collect the summary of every directory that has one, then sort
descending by identifier. -/
def get_recordings (entries : List DirEntry) : List (Option Summary) :=
  List.insertionSort summaryGE (entries.filterMap dirSummary)

/-- One external call to the manager, with its host environment. -/
inductive Call where
  | start (recording_name : Option String) (env : StartEnv)
  | stop (env : StopEnv)
  deriving DecidableEq, Repr

/-- Classification of one call's outcome, read off the returned result
dictionary: a rejected call is one refused by the is-recording guard, a
failed one is a call that passed the guard but whose host operation raised. -/
inductive Event where
  | startOk
  | startRejected
  | startFailed
  | stopOk
  | stopRejected
  | stopFailed
  deriving DecidableEq, Repr

/-- Apply one call to the manager state and classify its outcome. -/
def apply_call (c : Call) (st : ManagerState) : Event × ManagerState :=
  match c with
  | .start name env =>
    let r := start_recording name env st
    (if r.1.success then .startOk
     else if r.1.message = "Already recording" then .startRejected
     else .startFailed, r.2.1)
  | .stop env =>
    let r := stop_recording env st
    (if r.1.success then .stopOk
     else if r.1.message = "Not recording" then .stopRejected
     else .stopFailed, r.2.1)

/-- Run a sequence of calls, returning the event trace and the final state. -/
def run_calls : ManagerState → List Call → List Event × ManagerState
  | st, [] => ([], st)
  | st, c :: cs =>
    let e := apply_call c st
    let rest := run_calls e.2 cs
    (e.1 :: rest.1, rest.2)

/-- A stop call that passed the is-recording guard, whether or not its file
writes then succeeded. -/
def isAcceptedStop (e : Event) : Bool := e = .stopOk || e = .stopFailed

/-- The trace property of claim C3 as stated: some successful start has no
later successful stop. -/
def successfulStartNoLaterSuccessfulStop (tr : List Event) : Prop :=
  ∃ i : Fin tr.length, tr.get i = .startOk ∧
    ∀ j : Fin tr.length, i.val < j.val → ¬ (tr.get j = .stopOk)

instance (tr : List Event) : Decidable (successfulStartNoLaterSuccessfulStop tr) :=
  inferInstanceAs (Decidable (∃ _ : Fin _, _))

/-- The amended trace property: some successful start has no later accepted
stop (a stop made while recording, successful or not). -/
def successfulStartNoLaterAcceptedStop (tr : List Event) : Prop :=
  ∃ i : Fin tr.length, tr.get i = .startOk ∧
    ∀ j : Fin tr.length, i.val < j.val → isAcceptedStop (tr.get j) = false

instance (tr : List Event) : Decidable (successfulStartNoLaterAcceptedStop tr) :=
  inferInstanceAs (Decidable (∃ _ : Fin _, _))

/-- True when the timeline-interface reads of a capture pass return normally. -/
def tlOk (c : CaptureEnv) : Bool :=
  match c.timelineRead with
  | .ok _ => true
  | .error _ => false

/-- Number of ticks in the window of length n starting at frame fc on which a
capture pass runs and its timeline reads succeed, for cadence divisor d. -/
def captureCount (envs : Nat → TickEnv) (d : Nat) : Nat → Nat → Nat
  | _, 0 => 0
  | fc, n + 1 =>
    (if fc % d = 0 && tlOk (envs fc).capture then 1 else 0) +
      captureCount envs d (fc + 1) n

/-- Projection of the state out of a tick outcome. -/
def tickState : TickOutcome → ManagerState
  | .cont st _ => st
  | .exitNotRecording st => st
  | .exitMaxDuration st _ _ => st
  | .exitError st => st

/-- True when the tick outcome keeps the sampler loop running. -/
def tickContinues : TickOutcome → Bool
  | .cont _ _ => true
  | _ => false

/-- The physics buffer of a manager state (empty when no session data). -/
def statePhysics (st : ManagerState) : List PhysicsSample :=
  (st.recording_data.map (fun d => d.physics_data)).getD []

/-- The configuration with every capture flag the source exposes
(screenshots, physics, robot, sensor) disabled; note the source has no flag
for timeline capture. -/
def offConfig (D : Nat) : RecordingConfig :=
  { capture_frequency := 30
    capture_screenshots := false
    capture_physics_data := false
    capture_robot_data := false
    capture_sensor_data := false
    max_recording_duration := D }

/-- Demo data of an active session used by concrete witnesses. -/
def demoData : RecordingData :=
  { recording_id := "demo"
    start_time := "20250101_120000"
    timeline_data := []
    physics_data := []
    robot_data := []
    sensor_data := []
    screenshots := []
    metadata :=
      { recording_dir := "/tmp/isaac_sim_recordings/demo"
        isaac_sim_version := "5.0.0"
        stage_path := "stage.usd"
        end_time := none
        duration := none } }

/-- An active manager state used by concrete witnesses. -/
def activeSt : ManagerState :=
  { is_recording := true
    recording_start_time := some 0
    recording_data := some demoData
    recording_path := "/tmp/isaac_sim_recordings"
    current_recording_id := some "demo"
    recording_config := defaultConfig }

/-- An active state holding one timeline sample, for the C6 witness. -/
def oneSampleSt : ManagerState :=
  { activeSt with
      recording_data := some
        { demoData with timeline_data := [⟨2, 7, true, 0⟩] } }

/-- An active state configured with capture frequency 120. -/
def fastSt : ManagerState :=
  { activeSt with recording_config := { defaultConfig with capture_frequency := 120 } }

/-- An active state whose maximum duration is configured to 0 seconds. -/
def capSt : ManagerState :=
  { activeSt with recording_config :=
      { defaultConfig with max_recording_duration := 0 } }

/-- An active session with fresh buffers and all capture flags off. -/
def offSt : ManagerState :=
  { activeSt with recording_config := offConfig 300 }

/-- Benign tick environments whose clock starts at a session start time of 0. -/
def plainEnvs : Nat → TickEnv := fun k =>
  { now := k
    capture :=
      { now := k
        timelineRead := .ok (0, true)
        physicsBody := .ok (.record k)
        robotBody := .ok (.record k)
        sensorBody := .ok (.record k) }
    stopEnv := { end_time := "20250101_120100", now := k, writeDataOk := true, writeSummaryOk := true } }

/-- A start environment whose directory creation succeeds. -/
def goodStart : StartEnv :=
  { timestamp := "20250101_120000", stage_path := "stage.usd", mkdirOk := true, now := 0 }

/-- A start environment whose directory creation fails. -/
def badMkdirEnv : StartEnv :=
  { timestamp := "20250101_120000", stage_path := "stage.usd", mkdirOk := false, now := 0 }

/-- A stop environment whose file writes both succeed. -/
def goodStop : StopEnv :=
  { end_time := "20250101_120100", now := 5, writeDataOk := true, writeSummaryOk := true }

/-- A stop environment whose raw-data write fails. -/
def failStop : StopEnv :=
  { end_time := "20250101_120100", now := 5, writeDataOk := false, writeSummaryOk := true }

/-- A tick environment in which the physics capture callback raises. -/
def errTick : TickEnv :=
  { now := 0
    capture :=
      { now := 0
        timelineRead := .ok (7, true)
        physicsBody := .error ()
        robotBody := .ok (.record 0)
        sensorBody := .ok (.record 0) }
    stopEnv := goodStop }

/-- The call sequence refuting claim C3 as stated: a successful start, then a
stop accepted while recording whose file write fails. -/
def c3Calls : List Call := [.start none goodStart, .stop failStop]

/-- Projection of the state out of a loop result. -/
def loopState : LoopResult → ManagerState
  | .outOfFuel _ st => st
  | .stoppedExternally _ st => st
  | .maxDurationExit _ st _ _ => st
  | .errorExit _ st => st

/-- Frame count of a stop result's summary, zero when absent or empty. -/
def summaryFrameCount : Option (Option Summary) → Nat
  | some (some s) => s.frame_count
  | _ => 0

/-- No entry of the trace is an accepted stop. -/
def noAcceptedStop (tr : List Event) : Prop :=
  ∀ j : Fin tr.length, isAcceptedStop (tr.get j) = false

-- ===== Shared lemmas =====

/-- While a session is live, under its duration cap and with a nonzero cadence
divisor, one loop iteration always continues, possibly folding a capture pass
into the recording data; no capture outcome can produce an exit. -/
theorem loop_tick_live_eq (env : TickEnv) (st : ManagerState) (fc t0 : Nat)
    (hrec : st.is_recording = true) (ht0 : st.recording_start_time = some t0)
    (hcap : ¬ (env.now - t0 > 60 * st.recording_config.max_recording_duration))
    (hfreq : 60 / st.recording_config.capture_frequency ≠ 0) :
    loop_tick env st fc =
      .cont
        { st with recording_data :=
            if fc % (60 / st.recording_config.capture_frequency) = 0 then
              st.recording_data.map (capture_frame_data st.recording_config env.capture)
            else st.recording_data }
        (fc + 1) := by
  obtain ⟨rec, rst, rd, rp, cid, cfg⟩ := st
  simp only at hrec ht0
  subst hrec; subst ht0
  by_cases h : fc % (60 / cfg.capture_frequency) = 0
  · simp [loop_tick, hcap, hfreq, h]
  · simp [loop_tick, hcap, hfreq, h]

/-- The successful-stop path in full: both files land in the session
directory and the summary counts are the buffer lengths. -/
theorem stop_success_parts (env : StopEnv) (st : ManagerState) (d : RecordingData)
    (t0 : Nat) (hrec : st.is_recording = true) (hdata : st.recording_data = some d)
    (ht0 : st.recording_start_time = some t0)
    (hw1 : env.writeDataOk = true) (hw2 : env.writeSummaryOk = true)
    (hdur : env.now - t0 ≠ 0) :
    ∃ s, (stop_recording env st).1.success = true ∧
      (stop_recording env st).1.summary = some (some s) ∧
      s.frame_count = d.timeline_data.length ∧
      s.physics_events = d.physics_data.length ∧
      s.robot_events = d.robot_data.length ∧
      s.sensor_events = d.sensor_data.length ∧
      (stop_recording env st).2.2 =
        [⟨d.metadata.recording_dir, "recording_data.json",
          .rawData { d with metadata :=
            { d.metadata with end_time := some env.end_time
                              duration := some (env.now - t0) } }⟩,
         ⟨d.metadata.recording_dir, "recording_summary.json",
          .summaryJson (generate_recording_summary st.current_recording_id
            { d with metadata :=
              { d.metadata with end_time := some env.end_time
                                duration := some (env.now - t0) } })⟩] := by
  refine ⟨{ recording_id := st.current_recording_id
            duration := env.now - t0
            frame_count := d.timeline_data.length
            physics_events := d.physics_data.length
            robot_events := d.robot_data.length
            sensor_events := d.sensor_data.length
            sim_time_start := ((d.timeline_data.head?).map (fun s => s.simulation_time)).getD 0
            sim_time_end := ((d.timeline_data.getLast?).map (fun s => s.simulation_time)).getD 0
            avg_fps := (d.timeline_data.length : Rat) / ((env.now - t0 : Nat) : Rat) },
         ?_, ?_, rfl, rfl, rfl, rfl, ?_⟩ <;>
    simp [stop_recording, hrec, hdata, ht0, hw1, hw2,
          generate_recording_summary, hdur]

-- ===== Claim C4 =====

/-- Claim C4 (confirmed): while a session is Active, a start call is rejected
with the already-recording message and the state, hence the session's
identifier, buffers and start timestamp, is completely unchanged; no file is
written. -/
theorem start_while_active_rejected (recording_name : Option String)
    (env : StartEnv) (st : ManagerState) (h : st.is_recording = true) :
    start_recording recording_name env st =
      ({ success := false, message := "Already recording"
         recording_id := none, recording_dir := none }, st, []) := by
  simp [start_recording, h]

/-- Witness for claim C4 at a concrete active state. -/
theorem start_while_active_rejected_witness :
    activeSt.is_recording = true ∧
    start_recording (some "demo2") ⟨"20250101_120001", "stage.usd", true, 1⟩ activeSt =
      ({ success := false, message := "Already recording"
         recording_id := none, recording_dir := none }, activeSt, []) :=
  ⟨rfl, start_while_active_rejected (some "demo2")
    ⟨"20250101_120001", "stage.usd", true, 1⟩ activeSt rfl⟩

-- ===== Claim C5 =====

/-- Claim C5 (confirmed): while Idle, a stop call is rejected with the
not-recording message, the state is unchanged and no file is written. -/
theorem stop_while_idle_rejected (env : StopEnv) (st : ManagerState)
    (h : st.is_recording = false) :
    stop_recording env st =
      ({ success := false, message := "Not recording", recording_id := none
         recording_file := none, summary_file := none, summary := none }, st, []) := by
  simp [stop_recording, h]

/-- Witness for claim C5 at the freshly initialised manager. -/
theorem stop_while_idle_rejected_witness :
    initialState.is_recording = false ∧
    stop_recording ⟨"20250101_120001", 1, true, true⟩ initialState =
      ({ success := false, message := "Not recording", recording_id := none
         recording_file := none, summary_file := none, summary := none },
       initialState, []) :=
  ⟨rfl, stop_while_idle_rejected ⟨"20250101_120001", 1, true, true⟩ initialState rfl⟩

-- ===== Claim C8 =====

/-- Claim C8 (confirmed): for every state of the storage root, the listing is
sorted in descending identifier order, it is a permutation of exactly the
summaries of the directories that have a summary file, and adding a directory
that lacks a summary file leaves the listing unchanged up to permutation. -/
theorem get_recordings_sorted_desc_skips_missing (entries : List DirEntry) :
    (get_recordings entries).Sorted summaryGE ∧
    (get_recordings entries).Perm (entries.filterMap dirSummary) ∧
    ∀ e : DirEntry, e.summary = none →
      (get_recordings (e :: entries)).Perm (get_recordings entries) := by
  refine ⟨List.sorted_insertionSort summaryGE _,
          List.perm_insertionSort summaryGE _, ?_⟩
  intro e he
  have hnone : dirSummary e = none := by simp [dirSummary, he]
  have h1 : (get_recordings (e :: entries)).Perm ((e :: entries).filterMap dirSummary) :=
    List.perm_insertionSort summaryGE _
  have h2 : (e :: entries).filterMap dirSummary = entries.filterMap dirSummary := by
    simp [List.filterMap_cons, hnone]
  exact (h1.trans (h2 ▸ List.Perm.refl _)).trans
    (List.perm_insertionSort summaryGE _).symm

-- ===== Claim C9 =====

/-- Claim C9 (confirmed): with a capture frequency above 60, the cadence
divisor 60 // capture_frequency is zero, so the modulo expression raises
ZeroDivisionError on the loop's first iteration; the except handler breaks
out of the loop without calling stop_recording, so the whole run ends in the
error exit at frame 0 with the state exactly as it was: is_recording still
true, the session permanently Active, nothing captured and nothing written. -/
theorem freq_above_60_breaks_loop (envs : Nat → TickEnv) (st : ManagerState)
    (t0 fuel : Nat) (hrec : st.is_recording = true)
    (ht0 : st.recording_start_time = some t0)
    (hfreq : 60 < st.recording_config.capture_frequency)
    (hnow : (envs 0).now = t0) :
    60 / st.recording_config.capture_frequency = 0 ∧
    run_loop envs (fuel + 1) 0 st = .errorExit 0 st := by
  have hdiv : 60 / st.recording_config.capture_frequency = 0 :=
    Nat.div_eq_of_lt hfreq
  refine ⟨hdiv, ?_⟩
  simp [run_loop, loop_tick, hrec, ht0, hnow, hdiv]

/-- Witness for claim C9: capture frequency 120 on a live session. -/
theorem freq_above_60_breaks_loop_witness :
    fastSt.is_recording = true ∧
    fastSt.recording_start_time = some 0 ∧
    60 < fastSt.recording_config.capture_frequency ∧
    (60 / fastSt.recording_config.capture_frequency = 0 ∧
     run_loop plainEnvs 10 0 fastSt = .errorExit 0 fastSt) :=
  ⟨rfl, rfl, by decide,
   freq_above_60_breaks_loop plainEnvs fastSt 0 9 rfl rfl (by decide) rfl⟩

-- ===== Claim C10 =====

/-- Claim C10 (confirmed): when directory creation fails after the new
identifier was generated, start returns a failure result, is_recording stays
false, but current_recording_id now holds the freshly generated identifier,
which a later status call reports even though no session is Active. -/
theorem start_failure_retains_new_id (recording_name : Option String)
    (env : StartEnv) (st : ManagerState) (hrec : st.is_recording = false)
    (hmk : env.mkdirOk = false) :
    (start_recording recording_name env st).1.success = false ∧
    (start_recording recording_name env st).2.1 =
      { st with
          current_recording_id := some (genRecordingId recording_name env.timestamp) } ∧
    ∀ now, get_recording_status now (start_recording recording_name env st).2.1 =
      { is_recording := false
        recording_id := some (genRecordingId recording_name env.timestamp)
        duration := 0
        recording_path := st.recording_path } := by
  refine ⟨?_, ?_, ?_⟩ <;>
    simp [start_recording, get_recording_status, hrec, hmk]

/-- Witness for claim C10: mkdir fails on a fresh manager. -/
theorem start_failure_retains_new_id_witness :
    initialState.is_recording = false ∧
    badMkdirEnv.mkdirOk = false ∧
    ((start_recording none badMkdirEnv initialState).1.success = false ∧
     (start_recording none badMkdirEnv initialState).2.1 =
       { initialState with
           current_recording_id := some (genRecordingId none badMkdirEnv.timestamp) } ∧
     get_recording_status 7 (start_recording none badMkdirEnv initialState).2.1 =
       { is_recording := false
         recording_id := some (genRecordingId none badMkdirEnv.timestamp)
         duration := 0
         recording_path := initialState.recording_path }) :=
  ⟨rfl, rfl,
   (start_failure_retains_new_id none badMkdirEnv initialState rfl rfl).1,
   (start_failure_retains_new_id none badMkdirEnv initialState rfl rfl).2.1,
   (start_failure_retains_new_id none badMkdirEnv initialState rfl rfl).2.2 7⟩

-- ===== Claim C6 =====

/-- Claim C6 (confirmed): a successful stop writes exactly two files, both
under the session's directory, named recording_data.json and
recording_summary.json, and the persisted summary's frame_count equals the
number of timeline samples appended to the timeline buffer during the
session (the buffer starts empty at start, so its final length is that
count). The nonzero-elapsed hypothesis keeps the summary's average-fps
division defined, as on any real clock. -/
theorem stop_success_writes_two_files (env : StopEnv) (st : ManagerState)
    (d : RecordingData) (t0 : Nat) (hrec : st.is_recording = true)
    (hdata : st.recording_data = some d) (ht0 : st.recording_start_time = some t0)
    (hw1 : env.writeDataOk = true) (hw2 : env.writeSummaryOk = true)
    (hdur : env.now - t0 ≠ 0) :
    ∃ s, (stop_recording env st).1.success = true ∧
      ((stop_recording env st).2.2).length = 2 ∧
      (∀ w ∈ (stop_recording env st).2.2, w.dir = d.metadata.recording_dir) ∧
      ((stop_recording env st).2.2).map (fun w => w.name) =
        ["recording_data.json", "recording_summary.json"] ∧
      (stop_recording env st).1.summary = some (some s) ∧
      s.frame_count = d.timeline_data.length := by
  obtain ⟨s, hsucc, hsum, hfc, _, _, _, hws⟩ :=
    stop_success_parts env st d t0 hrec hdata ht0 hw1 hw2 hdur
  refine ⟨s, hsucc, ?_, ?_, ?_, hsum, hfc⟩
  · rw [hws]; rfl
  · rw [hws]; intro w hw
    simp only [List.mem_cons, List.mem_singleton] at hw
    rcases hw with rfl | rfl | h
    · rfl
    · rfl
    · cases h
  · rw [hws]; rfl

/-- Witness for claim C6: stopping a session holding one timeline sample. -/
theorem stop_success_writes_two_files_witness :
    oneSampleSt.is_recording = true ∧
    goodStop.now - 0 ≠ 0 ∧
    ∃ s, (stop_recording goodStop oneSampleSt).1.success = true ∧
      ((stop_recording goodStop oneSampleSt).2.2).length = 2 ∧
      (∀ w ∈ (stop_recording goodStop oneSampleSt).2.2,
        w.dir = ({ demoData with timeline_data := [⟨2, 7, true, 0⟩] } : RecordingData).metadata.recording_dir) ∧
      ((stop_recording goodStop oneSampleSt).2.2).map (fun w => w.name) =
        ["recording_data.json", "recording_summary.json"] ∧
      (stop_recording goodStop oneSampleSt).1.summary = some (some s) ∧
      s.frame_count =
        ({ demoData with timeline_data := [⟨2, 7, true, 0⟩] } : RecordingData).timeline_data.length :=
  ⟨rfl, by decide,
   stop_success_writes_two_files goodStop oneSampleSt
     { demoData with timeline_data := [⟨2, 7, true, 0⟩] } 0
     rfl rfl rfl rfl rfl (by decide)⟩

-- ===== Claim C1 =====

/-- Claim C1 (counterexample): during a capture pass in which the physics
capture callback raises, the sampler iteration still continues (it does not
abort or terminate the session): the callback's own handler swallows the
exception and appends the empty record to the physics buffer, and the
session stays recording. This refutes the claim that any capture-callback
exception aborts the entire sampler loop. -/
theorem capture_exception_isolated_counterexample :
    errTick.capture.physicsBody = Except.error () ∧
    tickContinues (loop_tick errTick activeSt 0) = true ∧
    (tickState (loop_tick errTick activeSt 0)).is_recording = true ∧
    statePhysics (tickState (loop_tick errTick activeSt 0)) = [PhysicsSample.empty] := by
  decide

/-- Claim C1 (amended, confirmed): an exception raised by a capture callback
never aborts the sampler loop. For every capture environment, including every
raising one, a live iteration under the duration cap with a nonzero cadence
divisor continues to the next tick with the session still recording: a raise
in a per-category helper is caught inside the helper (yielding an empty
record), and a raise in the timeline reads is caught by the frame-capture
handler (abandoning only that pass). -/
theorem capture_exception_never_aborts_loop (env : TickEnv) (st : ManagerState)
    (fc t0 : Nat) (hrec : st.is_recording = true)
    (ht0 : st.recording_start_time = some t0)
    (hcap : ¬ (env.now - t0 > 60 * st.recording_config.max_recording_duration))
    (hfreq : 60 / st.recording_config.capture_frequency ≠ 0) :
    ∃ st1, loop_tick env st fc = .cont st1 (fc + 1) ∧ st1.is_recording = true := by
  refine ⟨_, loop_tick_live_eq env st fc t0 hrec ht0 hcap hfreq, ?_⟩
  simpa using hrec

/-- Witness for the amended claim C1 at a concrete raising environment. -/
theorem capture_exception_never_aborts_loop_witness :
    errTick.capture.physicsBody = Except.error () ∧
    activeSt.is_recording = true ∧
    ∃ st1, loop_tick errTick activeSt 0 = .cont st1 1 ∧ st1.is_recording = true :=
  ⟨rfl, rfl,
   capture_exception_never_aborts_loop errTick activeSt 0 0 rfl rfl
     (by decide) (by decide)⟩

-- ===== Claim C7 =====

/-- While a cap-D session is live with the default 30 Hz cadence, the loop
continues tick by tick until the first tick whose elapsed time exceeds the
cap, at tick 60 D + 1, where it calls stop_recording and exits. -/
theorem run_loop_hits_cap (D t0 : Nat) (envs : Nat → TickEnv)
    (hnow : ∀ k, (envs k).now = t0 + k) :
    ∀ n fc st, st.is_recording = true → st.recording_start_time = some t0 →
      st.recording_config = { defaultConfig with max_recording_duration := D } →
      fc + n = 60 * D + 1 → ∀ fuel, n < fuel →
      ∃ st1 r ws, run_loop envs fuel fc st = .maxDurationExit (60 * D + 1) st1 r ws := by
  intro n
  induction n with
  | zero =>
    intro fc st hrec ht0 hcfg hfc fuel hfuel
    obtain ⟨f, rfl⟩ : ∃ f, fuel = f + 1 := ⟨fuel - 1, by omega⟩
    have hmax : st.recording_config.max_recording_duration = D := by rw [hcfg]
    have hfc1 : fc = 60 * D + 1 := by omega
    subst hfc1
    have hgt : (envs (60 * D + 1)).now - t0 >
        60 * st.recording_config.max_recording_duration := by
      rw [hnow, hmax]; omega
    refine ⟨(stop_recording (envs (60 * D + 1)).stopEnv st).2.1,
            (stop_recording (envs (60 * D + 1)).stopEnv st).1,
            (stop_recording (envs (60 * D + 1)).stopEnv st).2.2, ?_⟩
    simp [run_loop, loop_tick, hrec, ht0, hgt]
  | succ n ih =>
    intro fc st hrec ht0 hcfg hfc fuel hfuel
    obtain ⟨f, rfl⟩ : ∃ f, fuel = f + 1 := ⟨fuel - 1, by omega⟩
    have hmax : st.recording_config.max_recording_duration = D := by rw [hcfg]
    have hfr : st.recording_config.capture_frequency = 30 := by rw [hcfg]; rfl
    have hcap : ¬ ((envs fc).now - t0 >
        60 * st.recording_config.max_recording_duration) := by
      rw [hnow, hmax]; omega
    have hfreq : 60 / st.recording_config.capture_frequency ≠ 0 := by
      rw [hfr]; decide
    have hstep := loop_tick_live_eq (envs fc) st fc t0 hrec ht0 hcap hfreq
    rw [run_loop, hstep]
    exact ih (fc + 1) _ (by simpa using hrec) (by simpa using ht0)
      (by simpa using hcfg) (by omega) f (by omega)

/-- Claim C7 (confirmed): with the maximum duration configured to D seconds
(and the rest of the configuration default, 30 Hz cadence), a session started
at tick t0 and never stopped by the caller triggers stop_recording itself,
exiting via the max-duration path at tick 60 D + 1, that is at or after the
cap of D seconds (60 D ticks) and strictly before the cap plus one sample
interval (60 // 30 = 2 ticks); the elapsed-time check runs before each
capture pass. One tick is 1/60 s. -/
theorem duration_cap_stops_within_one_interval (D t0 : Nat)
    (envs : Nat → TickEnv) (st : ManagerState)
    (hnow : ∀ k, (envs k).now = t0 + k)
    (hrec : st.is_recording = true) (ht0 : st.recording_start_time = some t0)
    (hcfg : st.recording_config = { defaultConfig with max_recording_duration := D }) :
    (∃ st1 r ws, run_loop envs (60 * D + 2) 0 st =
      .maxDurationExit (60 * D + 1) st1 r ws) ∧
    60 * D ≤ 60 * D + 1 ∧
    60 * D + 1 < 60 * D + 60 / st.recording_config.capture_frequency := by
  refine ⟨run_loop_hits_cap D t0 envs hnow (60 * D + 1) 0 st hrec ht0 hcfg
    (by omega) (60 * D + 2) (by omega), by omega, ?_⟩
  have h2 : 60 / st.recording_config.capture_frequency = 2 := by
    rw [hcfg]; simp [defaultConfig]
  rw [h2]; omega

/-- Witness for claim C7 at cap 0: the loop stops itself at tick 1. -/
theorem duration_cap_stops_within_one_interval_witness :
    capSt.is_recording = true ∧
    capSt.recording_start_time = some 0 ∧
    ((∃ st1 r ws, run_loop plainEnvs (60 * 0 + 2) 0 capSt =
        .maxDurationExit (60 * 0 + 1) st1 r ws) ∧
      60 * 0 ≤ 60 * 0 + 1 ∧
      60 * 0 + 1 < 60 * 0 + 60 / capSt.recording_config.capture_frequency) :=
  ⟨rfl, rfl,
   duration_cap_stops_within_one_interval 0 0 plainEnvs capSt
     (fun k => by simp [plainEnvs]) rfl rfl rfl⟩

-- ===== Claim C2 =====

/-- With physics, robot and sensor capture disabled, a capture pass leaves
those buffers untouched and grows the timeline buffer by one sample exactly
when the timeline reads succeed. -/
theorem capture_frame_data_off (D : Nat) (env : CaptureEnv) (data : RecordingData) :
    (capture_frame_data (offConfig D) env data).physics_data = data.physics_data ∧
    (capture_frame_data (offConfig D) env data).robot_data = data.robot_data ∧
    (capture_frame_data (offConfig D) env data).sensor_data = data.sensor_data ∧
    (capture_frame_data (offConfig D) env data).timeline_data.length =
      data.timeline_data.length + (if tlOk env then 1 else 0) := by
  cases htl : env.timelineRead with
  | error e => simp [capture_frame_data, htl, tlOk]
  | ok p =>
    obtain ⟨simT, playing⟩ := p
    simp [capture_frame_data, htl, tlOk, offConfig]

/-- Specialisation of the live-tick step to the all-flags-off configuration:
the cadence divisor is 60 // 30 = 2 and a pass runs on even frames. -/
theorem loop_tick_off_eq (D : Nat) (env : TickEnv) (st : ManagerState)
    (fc t0 : Nat) (hrec : st.is_recording = true)
    (ht0 : st.recording_start_time = some t0)
    (hcfg : st.recording_config = offConfig D)
    (hcap : ¬ (env.now - t0 > 60 * D)) :
    loop_tick env st fc =
      .cont
        { st with recording_data :=
            if fc % 2 = 0 then
              st.recording_data.map (capture_frame_data (offConfig D) env.capture)
            else st.recording_data }
        (fc + 1) := by
  obtain ⟨rec, rst, rd, rp, cid, cfg⟩ := st
  simp only at hrec ht0 hcfg
  subst hrec; subst ht0; subst hcfg
  by_cases h : fc % 2 = 0
  · simp [loop_tick, offConfig, hcap, h]
  · simp [loop_tick, offConfig, hcap, h]

/-- Running the loop for n ticks inside the duration cap with the
all-flags-off configuration: the loop just runs out of fuel, the physics,
robot and sensor buffers never change, and the timeline buffer grows by one
per capture pass whose timeline reads succeed. -/
theorem run_loop_off_aux (D t0 : Nat) (envs : Nat → TickEnv)
    (hnow : ∀ k, (envs k).now = t0 + k) :
    ∀ n fc st d, st.is_recording = true → st.recording_start_time = some t0 →
      st.recording_config = offConfig D → st.recording_data = some d →
      fc + n ≤ 60 * D →
      ∃ d1, run_loop envs n fc st =
          .outOfFuel (fc + n) { st with recording_data := some d1 } ∧
        d1.physics_data = d.physics_data ∧ d1.robot_data = d.robot_data ∧
        d1.sensor_data = d.sensor_data ∧
        d1.timeline_data.length =
          d.timeline_data.length + captureCount envs 2 fc n := by
  intro n
  induction n with
  | zero =>
    intro fc st d hrec ht0 hcfg hdata hle
    refine ⟨d, ?_, rfl, rfl, rfl, by simp [captureCount]⟩
    have hst : { st with recording_data := some d } = st := by
      obtain ⟨r1, r2, r3, r4, r5, r6⟩ := st
      simp only at hdata
      rw [hdata]
    rw [hst]
    simp [run_loop]
  | succ n ih =>
    intro fc st d hrec ht0 hcfg hdata hle
    have hcap : ¬ ((envs fc).now - t0 > 60 * D) := by rw [hnow fc]; omega
    have hstep := loop_tick_off_eq D (envs fc) st fc t0 hrec ht0 hcfg hcap
    rw [hdata] at hstep
    by_cases h : fc % 2 = 0
    · rw [if_pos h] at hstep
      simp only [Option.map_some'] at hstep
      obtain ⟨hop, hor, hos, hol⟩ :=
        capture_frame_data_off D (envs fc).capture d
      obtain ⟨d2, hrun2, hp2, hr2, hs2, hl2⟩ :=
        ih (fc + 1)
          { st with
              recording_data := some (capture_frame_data (offConfig D) (envs fc).capture d) }
          (capture_frame_data (offConfig D) (envs fc).capture d)
          (by simpa using hrec) (by simpa using ht0) (by simpa using hcfg)
          (by simp) (by omega)
      refine ⟨d2, ?_, ?_, ?_, ?_, ?_⟩
      · have harr : fc + (n + 1) = fc + 1 + n := by omega
        rw [harr]
        have hrl : run_loop envs (n + 1) fc st =
            run_loop envs n (fc + 1)
              { st with
                  recording_data :=
                    some (capture_frame_data (offConfig D) (envs fc).capture d) } := by
          rw [run_loop, hstep]
        rw [hrl, hrun2]
      · rw [hp2, hop]
      · rw [hr2, hor]
      · rw [hs2, hos]
      · rw [hl2, hol]
        have hcc : captureCount envs 2 fc (n + 1) =
            (if tlOk (envs fc).capture then 1 else 0) +
              captureCount envs 2 (fc + 1) n := by
          simp [captureCount, h]
        rw [hcc]
        cases tlOk (envs fc).capture
        all_goals simp
        all_goals omega
    · rw [if_neg h] at hstep
      have hst : { st with recording_data := some d } = st := by
        obtain ⟨r1, r2, r3, r4, r5, r6⟩ := st
        simp only at hdata
        rw [hdata]
      rw [hst] at hstep
      obtain ⟨d2, hrun2, hp2, hr2, hs2, hl2⟩ :=
        ih (fc + 1) st d hrec ht0 hcfg hdata (by omega)
      refine ⟨d2, ?_, hp2, hr2, hs2, ?_⟩
      · have harr : fc + (n + 1) = fc + 1 + n := by omega
        rw [harr]
        have hrl : run_loop envs (n + 1) fc st = run_loop envs n (fc + 1) st := by
          rw [run_loop, hstep]
        rw [hrl, hrun2]
      · rw [hl2]
        have hcc : captureCount envs 2 fc (n + 1) =
            captureCount envs 2 (fc + 1) n := by
          simp [captureCount, h]
        rw [hcc]

/-- Claim C2 (counterexample): with every configurable capture flag disabled
(the source has no flag for timeline capture), a session run for three ticks
and stopped still reports frame_count 2 in its summary, because the timeline
capture is unconditional; so the claim that every per-category count
including frame_count is zero fails. -/
theorem disabled_categories_counterexample :
    offSt.recording_config.capture_screenshots = false ∧
    offSt.recording_config.capture_physics_data = false ∧
    offSt.recording_config.capture_robot_data = false ∧
    offSt.recording_config.capture_sensor_data = false ∧
    (stop_recording goodStop (loopState (run_loop plainEnvs 3 0 offSt))).1.success = true ∧
    summaryFrameCount
      (stop_recording goodStop (loopState (run_loop plainEnvs 3 0 offSt))).1.summary = 2 := by
  decide

/-- Claim C2 (amended, confirmed): with the three configurable sample
categories (physics, robot, sensor) disabled — timeline capture has no
configuration flag — a session started, run for n ticks inside the duration
cap and then stopped raises no exception: the stop succeeds, the physics,
robot and sensor buffers stay empty and their summary counts are zero, but
timeline samples are still captured, so the summary's frame_count equals the
number of capture passes performed, which is positive once the first tick has
run. -/
theorem disabled_categories_counts (D t0 n : Nat) (envs : Nat → TickEnv)
    (st : ManagerState) (d : RecordingData) (stopEnv : StopEnv)
    (hnow : ∀ k, (envs k).now = t0 + k)
    (hrec : st.is_recording = true) (ht0 : st.recording_start_time = some t0)
    (hcfg : st.recording_config = offConfig D) (hdata : st.recording_data = some d)
    (hft : d.timeline_data = []) (hfp : d.physics_data = [])
    (hfr2 : d.robot_data = []) (hfs : d.sensor_data = [])
    (hcap : n ≤ 60 * D) (hn : 0 < n) (htl0 : tlOk (envs 0).capture = true)
    (hw1 : stopEnv.writeDataOk = true) (hw2 : stopEnv.writeSummaryOk = true)
    (hdur : stopEnv.now - t0 ≠ 0) :
    ∃ st1 s, run_loop envs n 0 st = .outOfFuel n st1 ∧
      (stop_recording stopEnv st1).1.success = true ∧
      (stop_recording stopEnv st1).1.summary = some (some s) ∧
      s.physics_events = 0 ∧ s.robot_events = 0 ∧ s.sensor_events = 0 ∧
      s.frame_count = captureCount envs 2 0 n ∧ 0 < s.frame_count := by
  obtain ⟨d1, hrun, hp, hr, hs2, hl⟩ :=
    run_loop_off_aux D t0 envs hnow n 0 st d hrec ht0 hcfg hdata (by omega)
  obtain ⟨s, hsucc, hsum, hfc, hpe, hre, hse, _⟩ :=
    stop_success_parts stopEnv { st with recording_data := some d1 } d1 t0
      (by simpa using hrec) (by simp) (by simpa using ht0) hw1 hw2 hdur
  have hpos : 0 < captureCount envs 2 0 n := by
    obtain ⟨m, rfl⟩ : ∃ m, n = m + 1 := ⟨n - 1, by omega⟩
    simp [captureCount, htl0]
  refine ⟨{ st with recording_data := some d1 }, s, by simpa using hrun,
    hsucc, hsum, ?_, ?_, ?_, ?_, ?_⟩
  · rw [hpe, hp, hfp]; rfl
  · rw [hre, hr, hfr2]; rfl
  · rw [hse, hs2, hfs]; rfl
  · rw [hfc, hl, hft]; simp
  · rw [hfc, hl, hft]
    simpa using hpos

/-- Witness for the amended claim C2 with cap 1 second and three ticks. -/
theorem disabled_categories_counts_witness :
    ({ activeSt with recording_config := offConfig 1 } : ManagerState).is_recording = true ∧
    ∃ st1 s, run_loop plainEnvs 3 0 { activeSt with recording_config := offConfig 1 } =
        .outOfFuel 3 st1 ∧
      (stop_recording goodStop st1).1.success = true ∧
      (stop_recording goodStop st1).1.summary = some (some s) ∧
      s.physics_events = 0 ∧ s.robot_events = 0 ∧ s.sensor_events = 0 ∧
      s.frame_count = captureCount plainEnvs 2 0 3 ∧ 0 < s.frame_count :=
  ⟨rfl,
   disabled_categories_counts 1 0 3 plainEnvs
     { activeSt with recording_config := offConfig 1 } demoData goodStop
     (fun k => by simp [plainEnvs]) rfl rfl rfl rfl rfl rfl rfl rfl
     (by omega) (by omega) (by decide) rfl rfl (by decide)⟩

-- ===== Claim C3 =====

/-- Decomposition of the no-accepted-stop property over a cons. -/
theorem noAcceptedStop_cons (e : Event) (tr : List Event) :
    noAcceptedStop (e :: tr) ↔ isAcceptedStop e = false ∧ noAcceptedStop tr := by
  constructor
  · intro h
    exact ⟨h ⟨0, Nat.succ_pos _⟩, fun j => h j.succ⟩
  · rintro ⟨he, h⟩ j
    cases j using Fin.cases with
    | zero => exact he
    | succ i => exact h i

/-- Decomposition of the successful-start-no-later-accepted-stop property
over a cons. -/
theorem snlas_cons (e : Event) (tr : List Event) :
    successfulStartNoLaterAcceptedStop (e :: tr) ↔
      (e = .startOk ∧ noAcceptedStop tr) ∨
        successfulStartNoLaterAcceptedStop tr := by
  constructor
  · rintro ⟨i, hi, hall⟩
    cases i using Fin.cases with
    | zero =>
      left
      exact ⟨hi, fun j => hall j.succ (Nat.succ_pos _)⟩
    | succ i =>
      right
      exact ⟨i, hi, fun j hj => hall j.succ (Nat.succ_lt_succ hj)⟩
  · rintro (⟨he, hno⟩ | ⟨i, hi, hall⟩)
    · refine ⟨⟨0, Nat.succ_pos _⟩, he, fun j hj => ?_⟩
      cases j using Fin.cases with
      | zero => exact absurd hj (lt_irrefl 0)
      | succ k => exact hno k
    · refine ⟨i.succ, hi, fun j hj => ?_⟩
      cases j using Fin.cases with
      | zero => exact absurd hj (by simp)
      | succ k => exact hall k (Nat.lt_of_succ_lt_succ hj)

/-- How one call affects the recording flag, read off its classified event:
a successful start turns it on, an accepted stop (successful or not) turns it
off, and a rejected or failed start and a rejected stop leave it unchanged. -/
theorem apply_call_rec_effects (c : Call) (st : ManagerState) :
    ((apply_call c st).1 = .startOk → (apply_call c st).2.is_recording = true) ∧
    (isAcceptedStop (apply_call c st).1 = true →
      (apply_call c st).2.is_recording = false) ∧
    ((apply_call c st).1 = .startRejected ∨ (apply_call c st).1 = .startFailed ∨
        (apply_call c st).1 = .stopRejected →
      (apply_call c st).2.is_recording = st.is_recording) := by
  cases c with
  | start name env =>
    cases hr : st.is_recording with
    | true => simp [apply_call, start_recording, hr, isAcceptedStop]
    | false =>
      cases hm : env.mkdirOk with
      | true => simp [apply_call, start_recording, hr, hm, isAcceptedStop]
      | false => simp [apply_call, start_recording, hr, hm, isAcceptedStop]
  | stop env =>
    cases hr : st.is_recording with
    | false => simp [apply_call, stop_recording, hr, isAcceptedStop]
    | true =>
      cases hd : st.recording_data with
      | none => simp [apply_call, stop_recording, hr, hd, isAcceptedStop]
      | some d =>
        cases h0 : st.recording_start_time with
        | none => simp [apply_call, stop_recording, hr, hd, h0, isAcceptedStop]
        | some t0 =>
          cases hw1 : env.writeDataOk with
          | false => simp [apply_call, stop_recording, hr, hd, h0, hw1, isAcceptedStop]
          | true =>
            cases hw2 : env.writeSummaryOk with
            | false =>
              simp [apply_call, stop_recording, hr, hd, h0, hw1, hw2, isAcceptedStop]
            | true =>
              simp [apply_call, stop_recording, hr, hd, h0, hw1, hw2, isAcceptedStop]

/-- Characterisation of the recording flag after any call sequence from any
state: it is set iff the trace contains a successful start with no later
accepted stop, or the state was already recording and the trace contains no
accepted stop at all. -/
theorem run_calls_rec_char (cs : List Call) : ∀ st : ManagerState,
    ((run_calls st cs).2.is_recording = true ↔
      (successfulStartNoLaterAcceptedStop (run_calls st cs).1 ∨
        (st.is_recording = true ∧ noAcceptedStop (run_calls st cs).1))) := by
  induction cs with
  | nil =>
    intro st
    constructor
    · intro h
      exact Or.inr ⟨h, fun j => j.elim0⟩
    · rintro (⟨i, _, _⟩ | ⟨h, _⟩)
      · exact i.elim0
      · exact h
  | cons c cs ih =>
    intro st
    have hrc : run_calls st (c :: cs) =
        ((apply_call c st).1 :: (run_calls (apply_call c st).2 cs).1,
          (run_calls (apply_call c st).2 cs).2) := rfl
    rw [hrc]
    obtain ⟨h1, h2, h3⟩ := apply_call_rec_effects c st
    have hih := ih (apply_call c st).2
    simp only [snlas_cons, noAcceptedStop_cons]
    cases he : (apply_call c st).1 with
    | startOk =>
      rw [he] at h1
      rw [hih, h1 rfl]
      simp [isAcceptedStop]
      tauto
    | startRejected =>
      rw [he] at h3
      rw [hih, h3 (Or.inl rfl)]
      simp [isAcceptedStop]
    | startFailed =>
      rw [he] at h3
      rw [hih, h3 (Or.inr (Or.inl rfl))]
      simp [isAcceptedStop]
    | stopOk =>
      rw [he] at h2
      rw [hih, h2 rfl]
      simp [isAcceptedStop]
    | stopRejected =>
      rw [he] at h3
      rw [hih, h3 (Or.inr (Or.inr rfl))]
      simp [isAcceptedStop]
    | stopFailed =>
      rw [he] at h2
      rw [hih, h2 rfl]
      simp [isAcceptedStop]

/-- Claim C3 (counterexample): after a successful start followed by a stop
whose file write raises, the stop call returns a failure result, so the trace
contains a successful start with no later successful stop; yet is_recording
is false, because stop_recording clears the flag before its fallible writes.
So the claimed equivalence fails on this concrete call sequence. -/
theorem is_recording_iff_counterexample :
    ¬ (((run_calls initialState c3Calls).2.is_recording = true) ↔
        successfulStartNoLaterSuccessfulStop (run_calls initialState c3Calls).1) := by
  decide

/-- Claim C3 (amended, confirmed): for every finite sequence of start and stop
calls on a fresh manager, is_recording is true iff the sequence contains a
successful start with no later accepted stop, where an accepted stop is a
stop call made while recording, whether or not its file writes then succeed
(the flag is cleared before the writes, so even a failing accepted stop ends
the recording). -/
theorem is_recording_iff_start_no_accepted_stop (cs : List Call) :
    ((run_calls initialState cs).2.is_recording = true ↔
      successfulStartNoLaterAcceptedStop (run_calls initialState cs).1) := by
  have h := run_calls_rec_char cs initialState
  simpa [initialState] using h

end IsaacRec
